import Mathlib

/-!
Shallow embedding of the hardware-telemetry collector of
`rust-stats-overlay` (`src-tauri/src/stats.rs`, `src-tauri/src/gpu.rs`).

Foreign facilities (the `sysinfo` crate, the NVML driver library, the
Windows PDH performance-counter API) are modelled as oracles: each
construction step and each poll receives an environment record holding
exactly the values those facilities would report.  Rust `f32`/`f64`
arithmetic is modelled over `ℚ` (the claims under verification concern
signs, bounds, guards and the populated/absent structure, none of which
depend on rounding); unsigned machine integers are `Nat`, with an
explicit `% 2^32` where the source truncates with `as u32`.

The interface counters reported by `sysinfo::Networks` are cumulative
per interface; `received()` / `transmitted()` return the delta since the
previous refresh (an interface not present at the previous refresh
reports its full cumulative count).  The collector state therefore
carries the cumulative counters seen at the last refresh, exactly the
baseline `Networks::new_with_refreshed_list` / `Networks::refresh`
maintain inside `sysinfo`.

The model follows the Windows build of `stats.rs` (the `disk_pdh` field
is present); the non-Windows build, whose `collect` hard-codes the disk
pair to `(0.0, 0.0)`, coincides with the `disk_pdh = none` case of the
model, which produces the same pair.
-/

namespace StatsOverlay

/-- Source `gpu.rs`: `GpuStats` — the six per-poll GPU readings, each optional. -/
structure GpuStats where
  percent : Option Nat
  temp : Option Nat
  power_w : Option Nat
  clock_mhz : Option Nat
  vram_used_mb : Option Nat
  vram_total_mb : Option Nat
  deriving Repr, DecidableEq

/-- Source `gpu.rs`: `impl Default for GpuStats` — every field `None`. -/
def GpuStats.default : GpuStats :=
  { percent := none
    temp := none
    power_w := none
    clock_mhz := none
    vram_used_mb := none
    vram_total_mb := none }

/-- Oracle for one NVML device at one refresh: what each of the five
queries on `device_by_index(0)` would return (`none` = the query fails).
`memoryInfo` is the pair (used bytes, total bytes) of the single
`memory_info()` call. -/
structure DeviceReadings where
  utilizationGpu : Option Nat
  temperature : Option Nat
  powerUsageMw : Option Nat
  clockGraphicsMhz : Option Nat
  memoryInfo : Option (Nat × Nat)
  deriving Repr, DecidableEq

/-- Oracle for the NVML library at one refresh: `device_by_index(0)`
either fails (`none`) or yields a device with its five readings. -/
structure NvmlPollEnv where
  device0 : Option DeviceReadings
  deriving Repr, DecidableEq

/-- Source `gpu.rs`: `GpuMonitor` — owns the NVML handle (no observable state). -/
structure GpuMonitor where
  nvml : Unit
  deriving Repr, DecidableEq

/-- Source `gpu.rs`: `GpuMonitor::new` — `Nvml::init()` either succeeds or the
error is formatted into a message.  The oracle says whether init
succeeds and, on failure, which error text NVML produced. -/
def GpuMonitor.new (initOk : Bool) (errMsg : String) : Except String GpuMonitor :=
  if initOk then Except.ok { nvml := () }
  else Except.error ("NVML init failed: " ++ errMsg)

/-- Source `gpu.rs`: `GpuMonitor::refresh`.  If `device_by_index(0)` fails the
default (all-`None`) stats are returned; otherwise each of the five
readings is converted independently:  milliwatts to watts by integer
division, memory bytes to MB by division by 2^20 then truncation
`as u32`. -/
def GpuMonitor.refresh (_m : GpuMonitor) (e : NvmlPollEnv) : GpuStats :=
  match e.device0 with
  | none => GpuStats.default
  | some d =>
    { percent := d.utilizationGpu
      temp := d.temperature
      power_w := d.powerUsageMw.map (fun mw => mw / 1000)
      clock_mhz := d.clockGraphicsMhz
      vram_used_mb := d.memoryInfo.map (fun m => m.1 / 1048576 % 2 ^ 32)
      vram_total_mb := d.memoryInfo.map (fun m => m.2 / 1048576 % 2 ^ 32) }

/-- Source `stats.rs`: `SystemStats` — the snapshot `collect()` returns. -/
structure SystemStats where
  cpu_percent : ℚ
  cpu_freq_ghz : ℚ
  ram_percent : ℚ
  ram_used_gb : ℚ
  ram_total_gb : ℚ
  gpu_percent : Option Nat
  gpu_temp : Option Nat
  gpu_power_w : Option Nat
  gpu_clock_mhz : Option Nat
  vram_used_mb : Option Nat
  vram_total_mb : Option Nat
  disk_read_mb : ℚ
  disk_write_mb : ℚ
  net_down_mb : ℚ
  net_up_mb : ℚ
  deriving Repr, DecidableEq

/-- Source `stats.rs` (`disk_pdh` module): `PdhDisk` — the open query handle and
the two registered counter handles. -/
structure PdhDisk where
  query : Int
  counter_read : Int
  counter_write : Int
  deriving Repr, DecidableEq

/-- Oracle for `PdhDisk::new`: the status each PDH call would return and
the handles it would write.  `PdhAddEnglishCounterW` is called for the
read counter first; the write registration is only reached when the read
one succeeded (short-circuit `||` in the source), but its would-be
status is part of the oracle either way. -/
structure PdhCtorEnv where
  openStatus : Nat
  queryHandle : Int
  addReadStatus : Nat
  readHandle : Int
  addWriteStatus : Nat
  writeHandle : Int
  deriving Repr, DecidableEq

/-- Source `stats.rs`: `PdhDisk::new` — open the query (nonzero status aborts),
register the two English counters (either failing closes the query and
yields `None`), prime the rate counters with one discarded collection,
and return the handles. -/
def PdhDisk.new (e : PdhCtorEnv) : Option PdhDisk :=
  if e.openStatus ≠ 0 then none
  else if ¬(e.addReadStatus = 0 ∧ e.addWriteStatus = 0) then none
  else some { query := e.queryHandle
              counter_read := e.readHandle
              counter_write := e.writeHandle }

/-- Oracle for one `PdhDisk::collect` call: the status of
`PdhCollectQueryData` and, for each counter, the status and formatted
double that `PdhGetFormattedCounterValue` would produce. -/
structure PdhPollEnv where
  collectStatus : Nat
  readStatus : Nat
  readValue : ℚ
  writeStatus : Nat
  writeValue : ℚ
  deriving Repr, DecidableEq

/-- Source `stats.rs`: `PdhDisk::get_mb` — statuses 0 (`VALID_DATA`) and 1
(`NEW_DATA`) are success: the formatted bytes/sec value is divided by
2^20 and clamped below at 0; any other status yields 0. -/
def PdhDisk.get_mb (_d : PdhDisk) (status : Nat) (v : ℚ) : ℚ :=
  if status = 0 ∨ status = 1 then max (v / 1048576) 0 else 0

/-- Source `stats.rs`: `PdhDisk::collect` — a failing `PdhCollectQueryData`
yields `(0, 0)`; otherwise both counters are formatted via `get_mb`. -/
def PdhDisk.collect (d : PdhDisk) (e : PdhPollEnv) : ℚ × ℚ :=
  if e.collectStatus ≠ 0 then (0, 0)
  else (d.get_mb e.readStatus e.readValue, d.get_mb e.writeStatus e.writeValue)

/-- One network interface as `sysinfo` reports it at a refresh:
its name and its cumulative received/transmitted byte counters. -/
structure Iface where
  name : String
  cumRx : Nat
  cumTx : Nat
  deriving Repr, DecidableEq

/-- Cumulative counters the previous refresh recorded for a named
interface, if it was present then. -/
def findIface (nm : String) : List Iface → Option (Nat × Nat)
  | [] => none
  | i :: is => if i.name = nm then some (i.cumRx, i.cumTx) else findIface nm is

/-- The `sysinfo` delta semantics of `NetworkData::received/transmitted`:
bytes since the previous refresh (cumulative counters are monotone, so
`Nat` subtraction is exact; an interface unseen at the previous refresh
reports its full cumulative count). -/
def ifaceDelta (prev : List Iface) (i : Iface) : Nat × Nat :=
  match findIface i.name prev with
  | some (prx, ptx) => (i.cumRx - prx, i.cumTx - ptx)
  | none => (i.cumRx, i.cumTx)

/-- Oracle for one `collect()` call: everything the foreign facilities
report during that poll. -/
structure PollEnv where
  cpuUsage : ℚ
  cpuFreqsMhz : List Nat
  totalMemory : Nat
  usedMemory : Nat
  netIfaces : List Iface
  pdh : PdhPollEnv
  nvml : NvmlPollEnv
  deriving Repr, DecidableEq

/-- Source `stats.rs`: `StatsCollector` — the `sysinfo` handles (whose only
state observable through `collect` is the network baseline) plus the two
optional probes. -/
structure StatsCollector where
  netPrev : List Iface
  disk_pdh : Option PdhDisk
  gpu : Option GpuMonitor
  deriving Repr, DecidableEq

/-- Oracle for `StatsCollector::new`: the interface list at construction
time (the baseline `Networks::new_with_refreshed_list` records), the PDH
construction outcomes and the NVML init outcome. -/
structure CtorEnv where
  netIfaces : List Iface
  pdhCtor : PdhCtorEnv
  nvmlInitOk : Bool
  nvmlErrMsg : String
  deriving Repr, DecidableEq

/-- Source `stats.rs`: `StatsCollector::new` — refresh the system handle,
record the network baseline, attempt both probes (each failure is kept
as `None`, never retried). -/
def StatsCollector.new (e : CtorEnv) : StatsCollector :=
  { netPrev := e.netIfaces
    disk_pdh := PdhDisk.new e.pdhCtor
    gpu := (GpuMonitor.new e.nvmlInitOk e.nvmlErrMsg).toOption }

/-- Source `stats.rs`: `StatsCollector::collect` — refresh CPU, memory and
networks, then assemble the snapshot:
CPU percent straight from `global_cpu_usage`; frequency the mean of the
per-core MHz readings over 1000 (0 for an empty core list); RAM percent
`used / total * 100` guarded by `total > 0`; GB fields by division by
2^30; the disk pair from the PDH probe or `(0,0)` when absent; network
deltas summed over all interfaces and divided by 2^20; GPU stats from
the probe or all-`None` when absent.  Returns the snapshot and the
updated collector (new network baseline). -/
def StatsCollector.collect (st : StatsCollector) (env : PollEnv) :
    SystemStats × StatsCollector :=
  let cpu_percent := env.cpuUsage
  let cpu_freq_ghz : ℚ :=
    if env.cpuFreqsMhz.isEmpty then 0
    else
      let avg_mhz := (env.cpuFreqsMhz.map (Nat.cast : ℕ → ℚ)).sum /
        (env.cpuFreqsMhz.length : ℚ)
      avg_mhz / 1000
  let ram_total : ℚ := (env.totalMemory : ℚ)
  let ram_used : ℚ := (env.usedMemory : ℚ)
  let ram_percent := if ram_total > 0 then ram_used / ram_total * 100 else 0
  let ram_used_gb := ram_used / 1073741824
  let ram_total_gb := ram_total / 1073741824
  let diskPair := (st.disk_pdh.map (fun d => d.collect env.pdh)).getD (0, 0)
  let deltas := env.netIfaces.map (ifaceDelta st.netPrev)
  let net_rx := (deltas.map Prod.fst).sum
  let net_tx := (deltas.map Prod.snd).sum
  let net_down_mb : ℚ := (net_rx : ℚ) / 1048576
  let net_up_mb : ℚ := (net_tx : ℚ) / 1048576
  let gpu :=
    match st.gpu with
    | some g => g.refresh env.nvml
    | none => GpuStats.default
  (⟨cpu_percent, cpu_freq_ghz, ram_percent, ram_used_gb, ram_total_gb,
     gpu.percent, gpu.temp, gpu.power_w, gpu.clock_mhz,
     gpu.vram_used_mb, gpu.vram_total_mb,
     diskPair.1, diskPair.2, net_down_mb, net_up_mb⟩,
   { st with netPrev := env.netIfaces })

/-- Repeated polling: run `collect` over a list of poll environments,
returning the snapshots in order and the final collector state. -/
def runCollect : StatsCollector → List PollEnv → List SystemStats × StatsCollector
  | st, [] => ([], st)
  | st, e :: es =>
    let p := st.collect e
    let r := runCollect p.2 es
    (p.1 :: r.1, r.2)

/-- All six optional GPU/VRAM fields of a snapshot are absent. -/
def allGpuNone (s : SystemStats) : Prop :=
  s.gpu_percent = none ∧ s.gpu_temp = none ∧ s.gpu_power_w = none ∧
  s.gpu_clock_mhz = none ∧ s.vram_used_mb = none ∧ s.vram_total_mb = none

instance (s : SystemStats) : Decidable (allGpuNone s) := by
  unfold allGpuNone; infer_instance

/-- The populated/absent pattern of a snapshot over its field set: the
numeric fields are always populated, so the pattern is the `isSome` mask
of the six optional fields. -/
def snapshotShape (s : SystemStats) : List Bool :=
  [s.gpu_percent.isSome, s.gpu_temp.isSome, s.gpu_power_w.isSome,
   s.gpu_clock_mhz.isSome, s.vram_used_mb.isSome, s.vram_total_mb.isSome]

/-- The single `memory_info()` result visible in a refresh environment:
the (used, total) byte pair when `device_by_index(0)` and the memory
query both succeed. -/
def memQuery (e : NvmlPollEnv) : Option (Nat × Nat) :=
  e.device0.bind DeviceReadings.memoryInfo

/-! ### Concrete fixtures for witnesses and counterexamples -/

/-- A PDH construction in which every call succeeds. -/
def pdhOkCtor : PdhCtorEnv :=
  { openStatus := 0, queryHandle := 11, addReadStatus := 0, readHandle := 12,
    addWriteStatus := 0, writeHandle := 13 }

/-- A PDH construction in which `PdhOpenQueryW` fails. -/
def pdhFailCtor : PdhCtorEnv :=
  { openStatus := 3221228475, queryHandle := 0, addReadStatus := 0,
    readHandle := 0, addWriteStatus := 0, writeHandle := 0 }

/-- A PDH poll in which both counters format successfully. -/
def pdhOkPoll : PdhPollEnv :=
  { collectStatus := 0, readStatus := 0, readValue := 3145728,
    writeStatus := 1, writeValue := 1048576 }

/-- A device on which all five NVML readings succeed. -/
def devAllOk : DeviceReadings :=
  { utilizationGpu := some 42, temperature := some 55,
    powerUsageMw := some 123456, clockGraphicsMhz := some 1800,
    memoryInfo := some (2147483648, 8589934592) }

/-- A device on which the utilization query fails but the temperature
query succeeds (and the remaining readings fail). -/
def devMixed : DeviceReadings :=
  { utilizationGpu := none, temperature := some 55,
    powerUsageMw := none, clockGraphicsMhz := none, memoryInfo := none }

/-- A poll environment with all subsystems responding. -/
def envAllOk : PollEnv :=
  { cpuUsage := 37/2, cpuFreqsMhz := [3000, 4000],
    totalMemory := 17179869184, usedMemory := 8589934592,
    netIfaces := [{ name := "eth0", cumRx := 5242880, cumTx := 1048576 }],
    pdh := pdhOkPoll, nvml := { device0 := some devAllOk } }

/-- The same poll environment with `device_by_index(0)` failing. -/
def envGpuGone : PollEnv :=
  { envAllOk with nvml := { device0 := none } }

/-- A construction environment in which both probes fail and one
interface is present with counters (0, 0). -/
def ceNoProbes : CtorEnv :=
  { netIfaces := [{ name := "eth0", cumRx := 0, cumTx := 0 }],
    pdhCtor := pdhFailCtor, nvmlInitOk := false, nvmlErrMsg := "no driver" }

/-- A first-poll environment in which 1 MiB arrived on `eth0` between
construction and the first `collect()`. -/
def envTraffic : PollEnv :=
  { cpuUsage := 5, cpuFreqsMhz := [3000],
    totalMemory := 17179869184, usedMemory := 8589934592,
    netIfaces := [{ name := "eth0", cumRx := 1048576, cumTx := 0 }],
    pdh := pdhOkPoll, nvml := { device0 := none } }

/-- A collector whose GPU probe is present and disk probe absent, with
an empty network baseline. -/
def stGpuOnly : StatsCollector :=
  { netPrev := [], disk_pdh := none, gpu := some { nvml := () } }

/-! ### Helper lemmas -/

/-- Lemma: `get_mb` clamps at zero on success and returns zero on failure. -/
lemma get_mb_nonneg (d : PdhDisk) (status : Nat) (v : ℚ) :
    0 ≤ d.get_mb status v := by
  unfold PdhDisk.get_mb
  split
  · exact le_max_right _ _
  · exact le_refl 0

/-- Both components of a `PdhDisk::collect` result are nonnegative. -/
lemma pdh_collect_nonneg (d : PdhDisk) (e : PdhPollEnv) :
    0 ≤ (d.collect e).1 ∧ 0 ≤ (d.collect e).2 := by
  unfold PdhDisk.collect
  split
  · exact ⟨le_refl 0, le_refl 0⟩
  · exact ⟨get_mb_nonneg d _ _, get_mb_nonneg d _ _⟩

/-- The disk pair assembled in `collect` is nonnegative whatever the
probe state. -/
lemma diskPair_nonneg (o : Option PdhDisk) (e : PdhPollEnv) :
    0 ≤ ((o.map (fun d => d.collect e)).getD (0, 0)).1 ∧
    0 ≤ ((o.map (fun d => d.collect e)).getD (0, 0)).2 := by
  cases o with
  | none => exact ⟨le_refl 0, le_refl 0⟩
  | some d => exact pdh_collect_nonneg d e

/-- Lemma: `collect` never changes which probes are present: the updated state
keeps the same `gpu` and `disk_pdh` fields. -/
lemma collect_preserves_probes (st : StatsCollector) (env : PollEnv) :
    (st.collect env).2.gpu = st.gpu ∧ (st.collect env).2.disk_pdh = st.disk_pdh :=
  ⟨rfl, rfl⟩

/-- If the GPU probe is absent, every snapshot along any run has all six
GPU/VRAM fields `None`, and the probe stays absent in the final state. -/
lemma runCollect_gpu_none (st : StatsCollector) (h : st.gpu = none)
    (envs : List PollEnv) :
    (∀ s ∈ (runCollect st envs).1, allGpuNone s) ∧
    (runCollect st envs).2.gpu = none := by
  induction envs generalizing st with
  | nil => exact ⟨fun s hs => absurd hs (List.not_mem_nil s), h⟩
  | cons e es ih =>
    have hstep : (st.collect e).2.gpu = st.gpu := rfl
    have ihr := ih (st.collect e).2 (hstep.trans h)
    refine ⟨?_, ihr.2⟩
    intro s hs
    simp only [runCollect, List.mem_cons] at hs
    rcases hs with hs | hs
    · subst hs
      show allGpuNone (st.collect e).1
      unfold StatsCollector.collect
      rw [h]
      exact ⟨rfl, rfl, rfl, rfl, rfl, rfl⟩
    · exact ihr.1 s hs

/-- If the disk probe is absent, every snapshot along any run has both
disk fields equal to zero. -/
lemma runCollect_disk_none (st : StatsCollector) (h : st.disk_pdh = none)
    (envs : List PollEnv) :
    ∀ s ∈ (runCollect st envs).1, s.disk_read_mb = 0 ∧ s.disk_write_mb = 0 := by
  induction envs generalizing st with
  | nil => intro s hs; cases hs
  | cons e es ih =>
    intro s hs
    simp only [runCollect, List.mem_cons] at hs
    rcases hs with hs | hs
    · subst hs
      show ((st.collect e).1.disk_read_mb = 0 ∧ (st.collect e).1.disk_write_mb = 0)
      unfold StatsCollector.collect
      rw [h]
      exact ⟨rfl, rfl⟩
    · exact ih (st.collect e).2 ((collect_preserves_probes st e).2.trans h) s hs

/-- Field equation: `cpu_percent` is the oracle's aggregate usage. -/
lemma collect_cpu_percent (st : StatsCollector) (env : PollEnv) :
    (st.collect env).1.cpu_percent = env.cpuUsage := rfl

/-- Field equation: `cpu_freq_ghz` as assembled in `collect`. -/
lemma collect_cpu_freq_ghz (st : StatsCollector) (env : PollEnv) :
    (st.collect env).1.cpu_freq_ghz =
      if env.cpuFreqsMhz.isEmpty then 0
      else ((env.cpuFreqsMhz.map (Nat.cast : ℕ → ℚ)).sum /
        (env.cpuFreqsMhz.length : ℚ)) / 1000 := rfl

/-- Field equation: `ram_percent` as assembled in `collect`. -/
lemma collect_ram_percent (st : StatsCollector) (env : PollEnv) :
    (st.collect env).1.ram_percent =
      if (env.totalMemory : ℚ) > 0
      then (env.usedMemory : ℚ) / (env.totalMemory : ℚ) * 100
      else 0 := rfl

/-- Field equations: the GB fields as assembled in `collect`. -/
lemma collect_ram_gb (st : StatsCollector) (env : PollEnv) :
    (st.collect env).1.ram_used_gb = (env.usedMemory : ℚ) / 1073741824 ∧
    (st.collect env).1.ram_total_gb = (env.totalMemory : ℚ) / 1073741824 :=
  ⟨rfl, rfl⟩

/-- Field equations: the disk pair as assembled in `collect`. -/
lemma collect_disk (st : StatsCollector) (env : PollEnv) :
    (st.collect env).1.disk_read_mb =
      ((st.disk_pdh.map (fun d => d.collect env.pdh)).getD (0, 0)).1 ∧
    (st.collect env).1.disk_write_mb =
      ((st.disk_pdh.map (fun d => d.collect env.pdh)).getD (0, 0)).2 :=
  ⟨rfl, rfl⟩

/-- Field equations: the network fields as assembled in `collect`. -/
lemma collect_net (st : StatsCollector) (env : PollEnv) :
    (st.collect env).1.net_down_mb =
      ((((env.netIfaces.map (ifaceDelta st.netPrev)).map Prod.fst).sum : ℚ)) / 1048576 ∧
    (st.collect env).1.net_up_mb =
      ((((env.netIfaces.map (ifaceDelta st.netPrev)).map Prod.snd).sum : ℚ)) / 1048576 :=
  ⟨rfl, rfl⟩

/-- Lemma: `findIface` on a duplicate-free interface list recovers each
member's own counters. -/
lemma findIface_self (l : List Iface) (hnd : (l.map Iface.name).Nodup)
    (i : Iface) (hi : i ∈ l) : findIface i.name l = some (i.cumRx, i.cumTx) := by
  induction l with
  | nil => cases hi
  | cons j js ih =>
    rw [List.map_cons, List.nodup_cons] at hnd
    rcases List.mem_cons.mp hi with hij | hmem
    · subst hij
      unfold findIface
      rw [if_pos rfl]
    · have hne : ¬ j.name = i.name := by
        intro hEq
        exact hnd.1 (hEq ▸ List.mem_map_of_mem Iface.name hmem)
      unfold findIface
      rw [if_neg hne]
      exact ih hnd.2 hmem

/-- When the current refresh sees the same cumulative counters the
previous refresh recorded (duplicate-free names), every per-interface
delta is zero. -/
lemma ifaceDelta_self (l : List Iface) (hnd : (l.map Iface.name).Nodup)
    (i : Iface) (hi : i ∈ l) : ifaceDelta l i = (0, 0) := by
  unfold ifaceDelta
  rw [findIface_self l hnd i hi]
  simp

/-! ### Claim theorems -/

/-- C1: `collect()` is total — for every collector state (any
combination of GPU probe present/absent, disk probe present/absent) it
returns a `SystemStats` (its Lean type is a plain function into
`SystemStats × StatsCollector`, so no error is ever produced and every
field carries a value), with the six optional GPU/VRAM fields `None`
and the disk fields `0` whenever the respective probe is absent. -/
theorem collect_is_total (st : StatsCollector) (env : PollEnv) :
    ∃ s st2, st.collect env = (s, st2) ∧
      (st.gpu = none → allGpuNone s) ∧
      (st.disk_pdh = none → s.disk_read_mb = 0 ∧ s.disk_write_mb = 0) := by
  refine ⟨(st.collect env).1, (st.collect env).2, rfl, ?_, ?_⟩
  · intro h
    show allGpuNone (st.collect env).1
    unfold StatsCollector.collect
    rw [h]
    exact ⟨rfl, rfl, rfl, rfl, rfl, rfl⟩
  · intro h
    show (st.collect env).1.disk_read_mb = 0 ∧ (st.collect env).1.disk_write_mb = 0
    unfold StatsCollector.collect
    rw [h]
    exact ⟨rfl, rfl⟩

/-- Witness for C1 at the probe-less collector and a fully responding
poll environment. -/
theorem collect_is_total_witness :
    ∃ s st2, (StatsCollector.new ceNoProbes).collect envAllOk = (s, st2) ∧
      allGpuNone s ∧ (s.disk_read_mb = 0 ∧ s.disk_write_mb = 0) := by
  obtain ⟨s, st2, heq, hg, hd⟩ :=
    collect_is_total (StatsCollector.new ceNoProbes) envAllOk
  exact ⟨s, st2, heq, hg (by decide), hd (by decide)⟩

/-- C4: within one GPU refresh with the device reachable, the five
readings are independent — each snapshot field equals the per-field
conversion of its own reading only (`Some` exactly when that reading
succeeded, `None` exactly when it failed), regardless of how the sibling
readings fared. -/
theorem gpu_readings_independent (m : GpuMonitor) (e : NvmlPollEnv)
    (d : DeviceReadings) (h : e.device0 = some d) :
    (m.refresh e).percent = d.utilizationGpu ∧
    (m.refresh e).temp = d.temperature ∧
    (m.refresh e).power_w = d.powerUsageMw.map (fun mw => mw / 1000) ∧
    (m.refresh e).clock_mhz = d.clockGraphicsMhz ∧
    (m.refresh e).vram_used_mb = d.memoryInfo.map (fun p => p.1 / 1048576 % 2 ^ 32) ∧
    (m.refresh e).vram_total_mb = d.memoryInfo.map (fun p => p.2 / 1048576 % 2 ^ 32) := by
  unfold GpuMonitor.refresh
  rw [h]
  exact ⟨rfl, rfl, rfl, rfl, rfl, rfl⟩

/-- Witness for C4 on a device whose utilization query fails while the
temperature query succeeds: the snapshot simultaneously has
`gpu_percent = none` and `gpu_temp = some 55`. -/
theorem gpu_readings_independent_witness :
    (GpuMonitor.refresh { nvml := () } { device0 := some devMixed }).percent = none ∧
    (GpuMonitor.refresh { nvml := () } { device0 := some devMixed }).temp = some 55 := by
  obtain ⟨h1, h2, _⟩ :=
    gpu_readings_independent { nvml := () } { device0 := some devMixed } devMixed rfl
  exact ⟨h1, h2⟩

/-- C5: if GPU probe construction fails (`Nvml::init` errors), then in
every snapshot of every subsequent `collect()` call all six GPU/VRAM
fields are `None`, for the collector's entire lifetime — and the probe
field itself stays absent, so the state never flips to present. -/
theorem gpu_absent_forever (ce : CtorEnv) (h : ce.nvmlInitOk = false)
    (envs : List PollEnv) :
    (∀ s ∈ (runCollect (StatsCollector.new ce) envs).1, allGpuNone s) ∧
    (runCollect (StatsCollector.new ce) envs).2.gpu = none := by
  have hnew : (StatsCollector.new ce).gpu = none := by
    unfold StatsCollector.new GpuMonitor.new
    rw [h]
    rfl
  exact runCollect_gpu_none _ hnew envs

/-- Witness for C5: a failed-GPU construction followed by two polls, the
first with a fully functioning device — the first snapshot still has all
GPU fields `None` and the final state still has no GPU probe. -/
theorem gpu_absent_forever_witness :
    allGpuNone ((StatsCollector.new ceNoProbes).collect envAllOk).1 ∧
    (runCollect (StatsCollector.new ceNoProbes) [envAllOk, envGpuGone]).2.gpu = none := by
  have h := gpu_absent_forever ceNoProbes rfl [envAllOk, envGpuGone]
  refine ⟨h.1 _ ?_, h.2⟩
  simp [runCollect]

/-- C6: if disk-probe construction fails (and likewise on a platform
without the performance-counter subsystem, which the model renders as
the same absent probe), `disk_read_mb` and `disk_write_mb` are exactly 0
in every snapshot of every `collect()` call. -/
theorem disk_absent_zero (ce : CtorEnv) (h : PdhDisk.new ce.pdhCtor = none)
    (envs : List PollEnv) :
    ∀ s ∈ (runCollect (StatsCollector.new ce) envs).1,
      s.disk_read_mb = 0 ∧ s.disk_write_mb = 0 := by
  have hnew : (StatsCollector.new ce).disk_pdh = none := h
  exact runCollect_disk_none _ hnew envs

/-- Witness for C6: with `PdhOpenQueryW` failing at construction, the
first snapshot of a run reports both disk fields as 0 even though the
PDH poll environment carries nonzero counter values. -/
theorem disk_absent_zero_witness :
    ((StatsCollector.new ceNoProbes).collect envAllOk).1.disk_read_mb = 0 ∧
    ((StatsCollector.new ceNoProbes).collect envAllOk).1.disk_write_mb = 0 := by
  refine disk_absent_zero ceNoProbes (by decide) [envAllOk] _ ?_
  simp [runCollect]

/-- C10: the two VRAM fields of a refresh are paired — either the single
`memory_info()` query succeeded and both fields are `Some` of its used
and total bytes divided by 2^20 (truncated `as u32`), or it did not and
both are `None`; one field is never present without the other. -/
theorem vram_fields_paired (m : GpuMonitor) (e : NvmlPollEnv) :
    ((m.refresh e).vram_used_mb = none ∧ (m.refresh e).vram_total_mb = none ∧
      memQuery e = none) ∨
    (∃ u t, memQuery e = some (u, t) ∧
      (m.refresh e).vram_used_mb = some (u / 1048576 % 2 ^ 32) ∧
      (m.refresh e).vram_total_mb = some (t / 1048576 % 2 ^ 32)) := by
  unfold GpuMonitor.refresh memQuery
  cases e.device0 with
  | none => exact Or.inl ⟨rfl, rfl, rfl⟩
  | some d =>
    cases hm : d.memoryInfo with
    | none => exact Or.inl ⟨by simp [hm], by simp [hm], by simp [hm]⟩
    | some p => exact Or.inr ⟨p.1, p.2, by simp [hm], by simp [hm], by simp [hm]⟩

/-- C2: under the contracts of the foreign facilities (`sysinfo` reports
an aggregate CPU usage in [0,100] and a used-memory count not exceeding
total memory), every snapshot's numeric fields are within their
documented bounds: `cpu_percent` and `ram_percent` in [0,100], all other
numeric fields nonnegative. -/
theorem collect_fields_bounded (st : StatsCollector) (env : PollEnv)
    (hcpu0 : 0 ≤ env.cpuUsage) (hcpu100 : env.cpuUsage ≤ 100)
    (hmem : env.usedMemory ≤ env.totalMemory) :
    0 ≤ (st.collect env).1.cpu_percent ∧ (st.collect env).1.cpu_percent ≤ 100 ∧
    0 ≤ (st.collect env).1.ram_percent ∧ (st.collect env).1.ram_percent ≤ 100 ∧
    0 ≤ (st.collect env).1.cpu_freq_ghz ∧
    0 ≤ (st.collect env).1.ram_used_gb ∧ 0 ≤ (st.collect env).1.ram_total_gb ∧
    0 ≤ (st.collect env).1.disk_read_mb ∧ 0 ≤ (st.collect env).1.disk_write_mb ∧
    0 ≤ (st.collect env).1.net_down_mb ∧ 0 ≤ (st.collect env).1.net_up_mb := by
  rw [collect_cpu_percent, collect_ram_percent, collect_cpu_freq_ghz,
    (collect_ram_gb st env).1, (collect_ram_gb st env).2,
    (collect_disk st env).1, (collect_disk st env).2,
    (collect_net st env).1, (collect_net st env).2]
  refine ⟨hcpu0, hcpu100, ?_, ?_, ?_, ?_, ?_, ?_, ?_, ?_, ?_⟩
  · split
    · exact mul_nonneg (div_nonneg (Nat.cast_nonneg _) (Nat.cast_nonneg _))
        (by norm_num)
    · exact le_refl 0
  · split
    · rename_i htot
      have h1 : (env.usedMemory : ℚ) / (env.totalMemory : ℚ) ≤ 1 :=
        (div_le_one htot).mpr (Nat.cast_le.mpr hmem)
      calc (env.usedMemory : ℚ) / (env.totalMemory : ℚ) * 100
          ≤ 1 * 100 := mul_le_mul_of_nonneg_right h1 (by norm_num)
        _ = 100 := one_mul 100
    · norm_num
  · split
    · exact le_refl 0
    · refine div_nonneg (div_nonneg ?_ (Nat.cast_nonneg _)) (by norm_num)
      refine List.sum_nonneg ?_
      intro x hx
      obtain ⟨c, _, hcx⟩ := List.mem_map.mp hx
      rw [← hcx]
      exact Nat.cast_nonneg c
  · exact div_nonneg (Nat.cast_nonneg _) (by norm_num)
  · exact div_nonneg (Nat.cast_nonneg _) (by norm_num)
  · exact (diskPair_nonneg st.disk_pdh env.pdh).1
  · exact (diskPair_nonneg st.disk_pdh env.pdh).2
  · exact div_nonneg (Nat.cast_nonneg _) (by norm_num)
  · exact div_nonneg (Nat.cast_nonneg _) (by norm_num)

/-- Witness for C2 at a concrete in-contract poll environment. -/
theorem collect_fields_bounded_witness :
    0 ≤ (stGpuOnly.collect envAllOk).1.cpu_percent ∧
    (stGpuOnly.collect envAllOk).1.cpu_percent ≤ 100 ∧
    0 ≤ (stGpuOnly.collect envAllOk).1.ram_percent ∧
    (stGpuOnly.collect envAllOk).1.ram_percent ≤ 100 ∧
    0 ≤ (stGpuOnly.collect envAllOk).1.cpu_freq_ghz ∧
    0 ≤ (stGpuOnly.collect envAllOk).1.ram_used_gb ∧
    0 ≤ (stGpuOnly.collect envAllOk).1.ram_total_gb ∧
    0 ≤ (stGpuOnly.collect envAllOk).1.disk_read_mb ∧
    0 ≤ (stGpuOnly.collect envAllOk).1.disk_write_mb ∧
    0 ≤ (stGpuOnly.collect envAllOk).1.net_down_mb ∧
    0 ≤ (stGpuOnly.collect envAllOk).1.net_up_mb :=
  collect_fields_bounded stGpuOnly envAllOk (by norm_num [envAllOk])
    (by norm_num [envAllOk]) (by norm_num [envAllOk])

/-- C3: for every poll, `ram_percent` equals
`used_bytes / total_bytes * 100` computed from the reported memory
values, and is exactly 0 when the reported total is 0 (the
division-by-zero guard). -/
theorem ram_percent_guarded (st : StatsCollector) (env : PollEnv) :
    (env.totalMemory ≠ 0 →
      (st.collect env).1.ram_percent =
        (env.usedMemory : ℚ) / (env.totalMemory : ℚ) * 100) ∧
    (env.totalMemory = 0 → (st.collect env).1.ram_percent = 0) := by
  rw [collect_ram_percent]
  constructor
  · intro h
    rw [if_pos (by exact_mod_cast Nat.pos_of_ne_zero h)]
  · intro h
    rw [if_neg (by rw [h]; exact lt_irrefl 0)]

/-- Witness for C3: 8 GiB used of 16 GiB total yields exactly 50%, and
a zero total yields 0. -/
theorem ram_percent_guarded_witness :
    (stGpuOnly.collect envAllOk).1.ram_percent = 50 ∧
    (stGpuOnly.collect { envAllOk with totalMemory := 0 }).1.ram_percent = 0 := by
  constructor
  · rw [(ram_percent_guarded stGpuOnly envAllOk).1 (by decide)]
    norm_num [envAllOk]
  · exact (ram_percent_guarded stGpuOnly { envAllOk with totalMemory := 0 }).2 rfl

/-- C9: for every poll, `cpu_freq_ghz` is the arithmetic mean of the
logical cores' MHz readings divided by 1000, and is 0 for an empty core
list (the division by the core count is guarded, so the computation
never fails). -/
theorem cpu_freq_mean (st : StatsCollector) (env : PollEnv) :
    (env.cpuFreqsMhz ≠ [] →
      (st.collect env).1.cpu_freq_ghz =
        ((env.cpuFreqsMhz.map (Nat.cast : ℕ → ℚ)).sum /
          (env.cpuFreqsMhz.length : ℚ)) / 1000) ∧
    (env.cpuFreqsMhz = [] → (st.collect env).1.cpu_freq_ghz = 0) := by
  rw [collect_cpu_freq_ghz]
  constructor
  · intro h
    rw [if_neg (by simpa using h)]
  · intro h
    rw [if_pos (by simpa using h)]

/-- Witness for C9: cores at 3000 MHz and 4000 MHz average to 3.5 GHz,
and the empty core list yields 0. -/
theorem cpu_freq_mean_witness :
    (stGpuOnly.collect envAllOk).1.cpu_freq_ghz = 7 / 2 ∧
    (stGpuOnly.collect { envAllOk with cpuFreqsMhz := [] }).1.cpu_freq_ghz = 0 := by
  constructor
  · rw [(cpu_freq_mean stGpuOnly envAllOk).1 (by decide)]
    norm_num [envAllOk]
  · exact (cpu_freq_mean stGpuOnly { envAllOk with cpuFreqsMhz := [] }).2 rfl

/-- A first-poll environment whose interface counters coincide with the
construction baseline of `ceNoProbes` (no traffic since construction). -/
def envIdle : PollEnv :=
  { envAllOk with netIfaces := [{ name := "eth0", cumRx := 0, cumTx := 0 }] }

/-- The GPU stats `collect` merges into the snapshot: from the probe
when present, the all-`None` default when absent. -/
def gpuOf (st : StatsCollector) (env : PollEnv) : GpuStats :=
  match st.gpu with
  | some g => g.refresh env.nvml
  | none => GpuStats.default

/-- The `isSome` mask of a `GpuStats` value. -/
def gpuShape (g : GpuStats) : List Bool :=
  [g.percent.isSome, g.temp.isSome, g.power_w.isSome,
   g.clock_mhz.isSome, g.vram_used_mb.isSome, g.vram_total_mb.isSome]

/-- A snapshot's shape is the shape of the GPU stats merged into it. -/
lemma snapshotShape_collect (st : StatsCollector) (env : PollEnv) :
    snapshotShape (st.collect env).1 = gpuShape (gpuOf st env) := rfl

/-- C7 counterexample: the claim says the first snapshot after
construction reports `net_down_mb = net_up_mb = 0`, but the first
refresh reports the bytes accrued since the construction-time baseline:
with 1 MiB received on `eth0` between construction and the first poll,
the first snapshot's `net_down_mb` is 1, not 0. -/
theorem first_poll_net_zero_counterexample :
    ((StatsCollector.new ceNoProbes).collect envTraffic).1.net_down_mb = 1 ∧
    ¬ ((StatsCollector.new ceNoProbes).collect envTraffic).1.net_down_mb = 0 := by
  have hsum : ((envTraffic.netIfaces.map
      (ifaceDelta (StatsCollector.new ceNoProbes).netPrev)).map Prod.fst).sum =
      1048576 := by decide
  have h1 : ((StatsCollector.new ceNoProbes).collect envTraffic).1.net_down_mb = 1 := by
    rw [(collect_net (StatsCollector.new ceNoProbes) envTraffic).1, hsum]
    norm_num
  exact ⟨h1, by rw [h1]; norm_num⟩

/-- C7 (amended): the first snapshot's network fields are the deltas
against the construction-time baseline, so they are 0 exactly when the
cumulative interface counters are unchanged since construction (the
no-traffic reading of "no prior baseline"); on that same first call the
CPU and memory fields already carry the live readings of this poll. -/
theorem first_poll_net_when_idle (ce : CtorEnv) (env : PollEnv)
    (hsame : env.netIfaces = ce.netIfaces)
    (hnd : (ce.netIfaces.map Iface.name).Nodup) :
    ((StatsCollector.new ce).collect env).1.net_down_mb = 0 ∧
    ((StatsCollector.new ce).collect env).1.net_up_mb = 0 ∧
    ((StatsCollector.new ce).collect env).1.cpu_percent = env.cpuUsage ∧
    ((StatsCollector.new ce).collect env).1.ram_used_gb =
      (env.usedMemory : ℚ) / 1073741824 ∧
    ((StatsCollector.new ce).collect env).1.ram_total_gb =
      (env.totalMemory : ℚ) / 1073741824 := by
  have hprev : (StatsCollector.new ce).netPrev = ce.netIfaces := rfl
  have hdeltas : env.netIfaces.map (ifaceDelta (StatsCollector.new ce).netPrev) =
      env.netIfaces.map (fun _ => ((0 : Nat), (0 : Nat))) := by
    refine List.map_congr_left ?_
    intro i hi
    rw [hprev]
    rw [hsame] at hi
    exact ifaceDelta_self ce.netIfaces hnd i hi
  refine ⟨?_, ?_, collect_cpu_percent _ _, (collect_ram_gb _ _).1,
    (collect_ram_gb _ _).2⟩
  · rw [(collect_net (StatsCollector.new ce) env).1, hdeltas]
    simp
  · rw [(collect_net (StatsCollector.new ce) env).2, hdeltas]
    simp

/-- Witness for C7 (amended): constructing with both probes failed and
polling once with unchanged interface counters gives zero network
fields and live CPU/memory values (18.5% CPU, 8 GiB used). -/
theorem first_poll_net_when_idle_witness :
    ((StatsCollector.new ceNoProbes).collect envIdle).1.net_down_mb = 0 ∧
    ((StatsCollector.new ceNoProbes).collect envIdle).1.net_up_mb = 0 ∧
    ((StatsCollector.new ceNoProbes).collect envIdle).1.cpu_percent =
      envIdle.cpuUsage ∧
    ((StatsCollector.new ceNoProbes).collect envIdle).1.ram_used_gb =
      (envIdle.usedMemory : ℚ) / 1073741824 ∧
    ((StatsCollector.new ceNoProbes).collect envIdle).1.ram_total_gb =
      (envIdle.totalMemory : ℚ) / 1073741824 :=
  first_poll_net_when_idle ceNoProbes envIdle rfl (by decide)

/-- C8 counterexample: the claim says that for a fixed
probe-availability configuration every `collect()` call returns the same
populated/absent pattern, but with the GPU probe present the pattern
follows the per-poll device responses: two consecutive calls on the same
collector, the first with all readings succeeding and the second with
the device unreachable, return different patterns. -/
theorem snapshot_shape_counterexample :
    snapshotShape (stGpuOnly.collect envAllOk).1 =
      [true, true, true, true, true, true] ∧
    snapshotShape (((stGpuOnly.collect envAllOk).2).collect envGpuGone).1 =
      [false, false, false, false, false, false] ∧
    ¬ (snapshotShape (stGpuOnly.collect envAllOk).1 =
        snapshotShape (((stGpuOnly.collect envAllOk).2).collect envGpuGone).1) := by
  refine ⟨?_, ?_, ?_⟩ <;> decide

/-- C8 (amended): the populated/absent pattern of a snapshot is
determined by the probe-availability configuration together with the
current poll's GPU responses alone — it does not depend on the call
history or any other collector state, so any two calls with the same
availability and the same per-poll device responses yield the same
pattern (and with the GPU probe absent the pattern is constant). -/
theorem snapshot_shape_determined (st1 st2 : StatsCollector)
    (e1 e2 : PollEnv) (hg : st1.gpu.isSome = st2.gpu.isSome)
    (he : e1.nvml = e2.nvml) :
    snapshotShape (st1.collect e1).1 = snapshotShape (st2.collect e2).1 := by
  rw [snapshotShape_collect, snapshotShape_collect]
  have hgpu : gpuOf st1 e1 = gpuOf st2 e2 := by
    unfold gpuOf
    cases h1 : st1.gpu with
    | none =>
      cases h2 : st2.gpu with
      | none => rfl
      | some g2 => rw [h1, h2] at hg; simp at hg
    | some g1 =>
      cases h2 : st2.gpu with
      | none => rw [h1, h2] at hg; simp at hg
      | some g2 =>
        rw [he]
        rfl
  rw [hgpu]

/-- Witness for C8 (amended): the same poll environment fed to the
fresh collector and to the collector after one intervening call (same
availability, different network baseline) yields equal patterns. -/
theorem snapshot_shape_determined_witness :
    snapshotShape (stGpuOnly.collect envAllOk).1 =
      snapshotShape (((stGpuOnly.collect envGpuGone).2).collect envAllOk).1 :=
  snapshot_shape_determined stGpuOnly ((stGpuOnly.collect envGpuGone).2)
    envAllOk envAllOk rfl rfl

end StatsOverlay
